import Mathlib

/-!
Verification of the real-time weather-risk alert subsystem of the FAST_API
repository: the risk rule engine (src/weather/rules.py), the notification
governance layer (src/fcm/notification_manager.py), the websocket connection
registry (src/weather/websocket_manager.py), the cross-process publish
fabric (src/weather/redis_pubsub.py) and the background alert monitor
(src/weather/alert_monitor.py).

Python floats are modelled as exact rationals; the external key-value store
is modelled as an explicit map from keys to values with expiry instants, and
wall-clock time as an explicit natural-number parameter.
-/

namespace FastApi

/-- Round-half-to-even of the fraction n / d with d positive, matching
Python's built-in round applied to an exact value; written over raw
numerator and denominator so evaluation stays in integer arithmetic. -/
def pyRoundFrac (n d : Int) : Int :=
  let f : Int := Int.fdiv n d
  let r2 : Int := 2 * (n - f * d)
  if r2 < d then f
  else if d < r2 then f + 1
  else if f % 2 = 0 then f else f + 1

/-- Decimal rendering of n hundredths with two digits after the point, the
way Python string formatting with format spec .2f renders the value
n / 100. -/
def formatHundredths (n : Int) : String :=
  (if n < 0 then "-" else "") ++ toString (n.natAbs / 100) ++ "." ++
    (if n.natAbs % 100 < 10 then "0" else "") ++ toString (n.natAbs % 100)

/-- Python round(q / 0.1): the 0.1-degree bucket index of a coordinate. -/
def bucketIndex (q : Rat) : Int := pyRoundFrac (10 * q.num) (q.den : Int)

/-- Python string formatting of an exact rational value with format spec
.2f: the value in hundredths, rounded half to even, rendered with two
decimals. A negative value that rounds to zero keeps its minus sign, as
Python renders values in (-0.005, 0) as -0.00. -/
def format2 (q : Rat) : String :=
  (if q < 0 ∧ pyRoundFrac (100 * q.num) (q.den : Int) = 0 then "-" else "")
    ++ formatHundredths (pyRoundFrac (100 * q.num) (q.den : Int))

/-- ASCII lower-casing of one character. -/
def asciiLowerChar (c : Char) : Char :=
  if 65 ≤ c.toNat ∧ c.toNat ≤ 90 then Char.ofNat (c.toNat + 32) else c

/-- Python str.lower restricted to ASCII, as applied to crop names. -/
def asciiLower (s : String) : String := String.mk (s.data.map asciiLowerChar)

namespace Rules

/-- One field condition of a rule definition.

Modelled from the spec: the repository's crops_rules.json configuration file
is not among the provided sources, so the shapes a condition can take follow
the spec's taxonomy — a numeric range, a comparison operator with a
threshold, or an exact match — with thresholds as exact rationals. The
matching functions below are translated from src/src/weather/rules.py. -/
inductive Cond where
  | range (lo hi : Rat)
  | gtC (x : Rat)
  | ltC (x : Rat)
  | geC (x : Rat)
  | leC (x : Rat)
  | eqC (v : Rat)
deriving DecidableEq

/-- An observation: a finite mapping from weather field names to numeric
values (the weather dict of rules.py; all fields numeric per the data
model). -/
abbrev Weather := List (String × Rat)

/-- weather.get(key, 0): the observation field, defaulting to zero. -/
def getD (w : Weather) (k : String) : Rat := (w.lookup k).getD 0

/-- One condition test: _matches_range for ranges, _matches_simple_operator
for operator conditions (both default a missing field to 0), and the
exact-match branch of evaluate_conditions, which reads weather.get(key)
without a default so a missing field matches no exact value. -/
def condMatches (w : Weather) (k : String) : Cond → Bool
  | .range lo hi => decide (lo ≤ getD w k) && decide (getD w k ≤ hi)
  | .gtC x => decide (x < getD w k)
  | .ltC x => decide (getD w k < x)
  | .geC x => decide (x ≤ getD w k)
  | .leC x => decide (getD w k ≤ x)
  | .eqC v => w.lookup k == some v

/-- evaluate_conditions: every condition of the rule must hold (logical
AND). -/
def evaluateConditions (w : Weather) (conds : List (String × Cond)) : Bool :=
  conds.all fun kc => condMatches w kc.1 kc.2

/-- A rule definition, one entry of a crop's rule set; severity, message and
advice are optional exactly as apply_rules reads them with dict .get and a
default. -/
structure Rule where
  conditions : List (String × Cond)
  severity : Option String
  message : Option String
  advice : Option String
deriving DecidableEq

/-- A crop's rule set, in definition order. -/
abbrev RuleSet := List (String × Rule)

/-- The whole rule configuration: crop identifier to rule set
(crops_rules.json). -/
abbrev AllRules := List (String × RuleSet)

/-- load_rules: the crop's rule set when present, else the generic set, else
empty. -/
def loadRules (allRules : AllRules) (crop : String) : RuleSet :=
  match allRules.lookup crop with
  | some rs => rs
  | none => (allRules.lookup "generic").getD []

/-- SEVERITY_PRIORITY.get(severity, 1). -/
def severityValue (s : String) : Nat :=
  if s = "low" then 1
  else if s = "medium" then 2
  else if s = "high" then 3
  else if s = "critical" then 4
  else 1

/-- rule_def.get("severity", "low"). -/
def ruleSeverity (r : Rule) : String := r.severity.getD "low"

/-- The severity value apply_rules compares on. -/
def ruleSevValue (r : Rule) : Nat := severityValue (ruleSeverity r)

/-- A risk verdict: the dict apply_rules returns. -/
structure Verdict where
  risk : String
  severity : String
  message : String
  advice : String
deriving DecidableEq

/-- The verdict built from a matching named rule in apply_rules. -/
def mkVerdict (nr : String × Rule) : Verdict :=
  { risk := nr.1
    severity := ruleSeverity nr.2
    message := nr.2.message.getD ""
    advice := nr.2.advice.getD "" }

/-- The fixed no-risk verdict apply_rules returns when no rule matches. -/
def noRiskVerdict : Verdict :=
  { risk := "none"
    severity := "low"
    message := "Weather conditions are favorable. No immediate risks detected for your crops."
    advice := "Continue regular monitoring and maintenance routines." }

/-- The loop of apply_rules: best_rule and best_severity_value accumulate
over the rule set in definition order; a matching rule replaces the
accumulator only when its severity value is strictly greater. -/
def applyCore (w : Weather) :
    RuleSet → Option (String × Rule) → Nat → Option (String × Rule)
  | [], best, _ => best
  | r :: rs, best, bv =>
    if evaluateConditions w r.2.conditions && decide (bv < ruleSevValue r.2)
    then applyCore w rs (some r) (ruleSevValue r.2)
    else applyCore w rs best bv

/-- apply_rules(weather, crop) against a rule configuration. -/
def applyRules (allRules : AllRules) (w : Weather) (crop : String) : Verdict :=
  match applyCore w (loadRules allRules crop) none 0 with
  | some nr => mkVerdict nr
  | none => noRiskVerdict

/-- The rules of the loaded set whose conditions all hold for the
observation. -/
def matchingRules (allRules : AllRules) (w : Weather) (crop : String) : RuleSet :=
  (loadRules allRules crop).filter fun r => evaluateConditions w r.2.conditions

/-- The highest severity value present in a rule list. -/
def maxSevValue (l : RuleSet) : Nat :=
  l.foldr (fun r a => max (ruleSevValue r.2) a) 0

/-- Selection as the spec words it: the first rule of the list attaining the
highest severity — highest tier wins and ties go to the earliest rule in
definition order. -/
def specBest (l : RuleSet) : Option (String × Rule) :=
  l.find? fun r => ruleSevValue r.2 == maxSevValue l

/-- The first-strict-argmax walk applyCore performs after it adopts a first
matching rule. -/
def firstArgmax (b : String × Rule) : RuleSet → (String × Rule)
  | [] => b
  | x :: xs =>
    if ruleSevValue b.2 < ruleSevValue x.2 then firstArgmax x xs
    else firstArgmax b xs

end Rules

namespace Notif

/-- The externally stored notification-governance state (the Redis keyspace):
each key maps to a numeric value and an optional expiry instant, in
seconds. -/
abbrev KV := List (String × (Nat × Option Nat))

/-- Replace or create the binding of one key. -/
def kvWrite (st : KV) (k : String) (e : Nat × Option Nat) : KV :=
  (k, e) :: st.filter fun p => ¬(p.1 = k)

/-- A read at instant t: a value is visible while its expiry lies strictly in
the future; a value with no expiry is always visible. -/
def kvGet (st : KV) (t : Nat) (k : String) : Option Nat :=
  match st.lookup k with
  | some (v, some e) => if t < e then some v else none
  | some (v, none) => some v
  | none => none

/-- SETEX key ttl value issued at instant t. -/
def kvSetex (st : KV) (t : Nat) (k : String) (ttl : Nat) (v : Nat) : KV :=
  kvWrite st k (v, some (t + ttl))

/-- INCR issued at instant t: a live counter is incremented keeping its
expiry; an absent or expired key becomes 1 with no expiry. -/
def kvIncr (st : KV) (t : Nat) (k : String) : KV :=
  match st.lookup k with
  | some (v, some e) =>
    if t < e then kvWrite st k (v + 1, some e) else kvWrite st k (1, none)
  | some (v, none) => kvWrite st k (v + 1, none)
  | none => kvWrite st k (1, none)

/-- _generate_notification_hash hashes this content string with SHA-256; the
hash is modelled by the content string itself, an injective stand-in. -/
def notifHash (userId nType severity summary : String) : String :=
  userId ++ ":" ++ nType ++ ":" ++ severity ++ ":" ++ summary

/-- The dedup-marker key of one content hash. -/
def dedupKey (h : String) : String := "notif:dedup:" ++ h

/-- The rolling hourly counter key of one recipient. -/
def hourlyKey (userId : String) : String := "notif:rate:hour:" ++ userId

/-- The rolling daily counter key of one recipient. -/
def dailyKey (userId : String) : String := "notif:rate:day:" ++ userId

def MAX_NOTIFICATIONS_PER_HOUR : Nat := 5

def MAX_NOTIFICATIONS_PER_DAY : Nat := 20

def DEDUP_WINDOW_MINUTES : Nat := 60

/-- The decision should_send_notification returns. -/
structure SendDecision where
  send : Bool
  reason : String
deriving DecidableEq

/-- The daily-ceiling check, the tail of should_send_notification. -/
def dailyCheck (st : KV) (t : Nat) (userId : String) : SendDecision :=
  match kvGet st t (dailyKey userId) with
  | some dc =>
    if MAX_NOTIFICATIONS_PER_DAY ≤ dc then { send := false, reason := "rate_limit_daily" }
    else { send := true, reason := "approved" }
  | none => { send := true, reason := "approved" }

/-- should_send_notification: forced or critical alerts always pass; then the
dedup marker, then the hourly ceiling (which high severity may exceed), then
the daily ceiling, are checked in that order. -/
def shouldSendNotification (st : KV) (t : Nat)
    (userId nType severity summary : String) (force : Bool) : SendDecision :=
  if force || severity == "critical" then
    { send := true, reason := "critical_priority" }
  else if (kvGet st t (dedupKey (notifHash userId nType severity summary))).isSome then
    { send := false, reason := "duplicate_recent" }
  else
    match kvGet st t (hourlyKey userId) with
    | some hc =>
      if MAX_NOTIFICATIONS_PER_HOUR ≤ hc && severity != "high" then
        { send := false, reason := "rate_limit_hourly" }
      else dailyCheck st t userId
    | none => dailyCheck st t userId

/-- One counter bump of mark_notification_sent: an absent counter is created
as 1 with its expiration, a live one is incremented. -/
def bumpCounter (st : KV) (t : Nat) (k : String) (ttl : Nat) : KV :=
  match kvGet st t k with
  | none => kvSetex st t k ttl 1
  | some _ => kvIncr st t k

/-- mark_notification_sent: set the dedup marker for the dedup window, then
create-or-increment the hourly and daily counters with their respective
expirations. -/
def markNotificationSent (st : KV) (t : Nat)
    (userId nType severity summary : String) : KV :=
  bumpCounter
    (bumpCounter
      (kvSetex st t (dedupKey (notifHash userId nType severity summary))
        (DEDUP_WINDOW_MINUTES * 60) 1)
      t (hourlyKey userId) 3600)
    t (dailyKey userId) 86400

end Notif

namespace Ws

/-- _get_location_key with the default 0.1-degree radius: each coordinate is
rounded to the grid (round(x / 0.1) * 0.1) and the pair rendered with two
decimals. The rounded coordinate bucketIndex x * 0.1 equals
10 * bucketIndex x hundredths. -/
def locationKey (lat lon : Rat) : String :=
  formatHundredths (10 * bucketIndex lat) ++ "," ++ formatHundredths (10 * bucketIndex lon)

/-- Per-connection metadata: the client_info dict of websocket_manager.py. -/
structure ClientInfo where
  userId : Option String
  locations : List String
  crops : List String
  lat : Option Rat
  lon : Option Rat
  crop : Option String
deriving DecidableEq

/-- The connection-registry state. Connections are identified by numeric
handles. closedChannels records the handles on which websocket.close was
called; redisMirror records the handles whose subscription is mirrored in
the external store. -/
structure ManagerState where
  activeConnections : List (Nat × ClientInfo)
  locationSubscriptions : List (String × List Nat)
  cropSubscriptions : List (String × List Nat)
  redisMirror : List Nat
  closedChannels : List Nat
deriving DecidableEq

/-- The freshly constructed registry. -/
def emptyManager : ManagerState :=
  { activeConnections := [], locationSubscriptions := [], cropSubscriptions := []
    redisMirror := [], closedChannels := [] }

/-- Set-style insertion into a subscriber list. -/
def insertSet (l : List Nat) (x : Nat) : List Nat := if x ∈ l then l else l ++ [x]

/-- File ws under key, creating the subscriber set on first use. -/
def addToIndex (idx : List (String × List Nat)) (key : String) (ws : Nat) :
    List (String × List Nat) :=
  match idx.lookup key with
  | some l => (key, insertSet l ws) :: idx.filter fun p => ¬(p.1 = key)
  | none => (key, [ws]) :: idx.filter fun p => ¬(p.1 = key)

/-- Discard ws from the subscriber set under key, deleting the entry when the
set becomes empty — the cleanup disconnect performs per recorded key. -/
def removeFromIndex (idx : List (String × List Nat)) (key : String) (ws : Nat) :
    List (String × List Nat) :=
  match idx.lookup key with
  | some l =>
    if l.filter (fun x => ¬(x = ws)) = [] then idx.filter fun p => ¬(p.1 = key)
    else (key, l.filter fun x => ¬(x = ws)) :: idx.filter fun p => ¬(p.1 = key)
  | none => idx

/-- Python truthiness of the optional crop parameter, and its index key:
present, not empty, lower-cased. -/
def cropKeyOf (crop : Option String) : Option String :=
  match crop with
  | some c => if c = "" then none else some (asciiLower c)
  | none => none

/-- connect(websocket, user_id, lat, lon, crop): registers the connection,
auto-subscribes it under its location bucket and its lower-cased crop, and
mirrors the subscription into the external store when location and crop are
both given. The model takes websocket.accept as succeeding. -/
def connect (st : ManagerState) (ws : Nat) (userId : Option String)
    (lat lon : Option Rat) (crop : Option String) : ManagerState :=
  let key? : Option String :=
    match lat, lon with
    | some la, some lo => some (locationKey la lo)
    | _, _ => none
  let cropKey? := cropKeyOf crop
  let info : ClientInfo :=
    { userId := userId, locations := key?.toList, crops := cropKey?.toList
      lat := lat, lon := lon, crop := crop }
  { activeConnections := (ws, info) :: st.activeConnections.filter fun p => ¬(p.1 = ws)
    locationSubscriptions :=
      match key? with
      | some k => addToIndex st.locationSubscriptions k ws
      | none => st.locationSubscriptions
    cropSubscriptions :=
      match cropKey? with
      | some c => addToIndex st.cropSubscriptions c ws
      | none => st.cropSubscriptions
    redisMirror :=
      if key?.isSome && cropKey?.isSome then insertSet st.redisMirror ws
      else st.redisMirror
    closedChannels := st.closedChannels }

/-- disconnect(websocket): when the connection is registered, removes it from
every location and crop index entry recorded in its client info, deletes its
external mirror entry, and drops it from the table; otherwise does nothing.
The source never calls websocket.close here, so closedChannels is
untouched. -/
def disconnect (st : ManagerState) (ws : Nat) : ManagerState :=
  match st.activeConnections.lookup ws with
  | none => st
  | some info =>
    { activeConnections := st.activeConnections.filter fun p => ¬(p.1 = ws)
      locationSubscriptions :=
        info.locations.foldl (fun idx k => removeFromIndex idx k ws)
          st.locationSubscriptions
      cropSubscriptions :=
        info.crops.foldl (fun idx k => removeFromIndex idx k ws)
          st.cropSubscriptions
      redisMirror := st.redisMirror.filter fun x => ¬(x = ws)
      closedChannels := st.closedChannels }

/-- An alert envelope as carried on the fabric — the dict publish_alert
builds: location, crop, and the embedded payload under data. -/
structure AlertEnvelope where
  lat : Option Rat
  lon : Option Rat
  crop : Option String
  data : Option String
deriving DecidableEq

/-- What broadcast_to_matching_clients sends: alert_data.get("data",
alert_data) — the embedded payload when present, else the whole envelope. -/
inductive WireMessage where
  | payload (p : String)
  | whole (e : AlertEnvelope)
deriving DecidableEq

/-- The matching set of broadcast_to_matching_clients: nothing when lat or
lon is absent; otherwise the union of the location-bucket subscriber set and
— for a truthy crop — the lower-cased-crop subscriber set, each connection at
most once. -/
def matchingClients (st : ManagerState) (env : AlertEnvelope) : List Nat :=
  match env.lat, env.lon with
  | some la, some lo =>
    let cropKey := asciiLower (env.crop.getD "")
    let locList := (st.locationSubscriptions.lookup (locationKey la lo)).getD []
    let cropList :=
      if cropKey = "" then [] else (st.cropSubscriptions.lookup cropKey).getD []
    (locList ++ cropList).dedup
  | _, _ => []

/-- broadcast_to_matching_clients with every send succeeding: the deliveries
performed, as connection-message pairs. -/
def broadcastToMatchingClients (st : ManagerState) (env : AlertEnvelope) :
    List (Nat × WireMessage) :=
  let msg := match env.data with
    | some p => WireMessage.payload p
    | none => WireMessage.whole env
  (matchingClients st env).map fun ws => (ws, msg)

/-- The per-connection filter of disconnect_by_user_and_location: same user
id and exactly the stored lat and lon — the computed location bucket is never
consulted by the source — with an optional exact crop filter. -/
def connMatches (userId : String) (lat lon : Rat) (crop? : Option String)
    (info : ClientInfo) : Bool :=
  info.userId == some userId && info.lat == some lat && info.lon == some lon &&
    (crop?.isNone || info.crop == crop?)

/-- disconnect_by_user_and_location(user_id, lat, lon, crop): closes and
disconnects each matching connection and returns how many were closed. -/
def disconnectByUserAndLocation (st : ManagerState) (userId : String)
    (lat lon : Rat) (crop? : Option String) : ManagerState × Nat :=
  let toClose := st.activeConnections.filter fun p => connMatches userId lat lon crop? p.2
  toClose.foldl
    (fun acc p =>
      (disconnect { acc.1 with closedChannels := insertSet acc.1.closedChannels p.1 } p.1,
        acc.2 + 1))
    (st, 0)

/-- Registry well-formedness: every connection filed under an index entry is
registered and its client info records that key — the symmetry connect and
the subscribe operations maintain. -/
def wf (st : ManagerState) : Bool :=
  (st.locationSubscriptions.all fun kl => kl.2.all fun w =>
    match st.activeConnections.lookup w with
    | some info => decide (kl.1 ∈ info.locations)
    | none => false) &&
  (st.cropSubscriptions.all fun kl => kl.2.all fun w =>
    match st.activeConnections.lookup w with
    | some info => decide (kl.1 ∈ info.crops)
    | none => false)

end Ws

namespace PubSub

/-- publish_alert(lat, lon, crop, alert_data): the same envelope published on
the global alerts channel, on a per-location channel keyed by the raw
coordinates rendered with two decimals, and on a per-crop channel keyed by
the lower-cased crop. -/
def publishAlert (lat lon : Rat) (crop : String) (payload : String) :
    List (String × Ws.AlertEnvelope) :=
  let env : Ws.AlertEnvelope :=
    { lat := some lat, lon := some lon, crop := some crop, data := some payload }
  [("weather:alerts", env),
   ("weather:location:" ++ format2 lat ++ "," ++ format2 lon, env),
   ("weather:crop:" ++ asciiLower crop, env)]

end PubSub

namespace Monitor

/-- A mirrored subscription as read back from the external store. -/
structure Subscription where
  lat : Option Rat
  lon : Option Rat
  crop : Option String
  userId : Option String

/-- _get_active_subscriptions: the enumeration of mirrored subscriptions. Its
internal try/except turns a failing store into the subscriptions collected
before the failure — the empty collection for a failure at the key-scan
step. -/
def getActiveSubscriptions
    (enumResult : Except String (List (String × Subscription))) :
    List (String × Subscription) :=
  match enumResult with
  | Except.ok subs => subs
  | Except.error _ => []

/-- The per-subscription body under its own handler: a failing check is
caught and logged and processing continues. -/
def checkSubscriptionCaught (perSub : Subscription → Except String Unit)
    (s : Subscription) : Unit :=
  match perSub s with
  | Except.ok _ => ()
  | Except.error _ => ()

/-- _check_all_subscriptions: enumerate (failures already absorbed inside
getActiveSubscriptions), run every subscription under the per-subscription
handler, and wrap the body in an outer handler that turns any leftover
failure into a logged normal return. -/
def checkAllSubscriptions
    (enumResult : Except String (List (String × Subscription)))
    (perSub : Subscription → Except String Unit) : Except String Unit :=
  match
    ((getActiveSubscriptions enumResult).foldl
      (fun acc s => acc >>= fun _ => Except.ok (checkSubscriptionCaught perSub s.2))
      (Except.ok ()) : Except String Unit) with
  | Except.ok _ => Except.ok ()
  | Except.error _ => Except.ok ()

def CHECK_INTERVAL_DEFAULT : Nat := 300

/-- One iteration of _monitor_loop, as the sleep taken before the next tick:
the check interval when the tick returns normally, the 60-second backoff
when the tick raises a non-cancellation error. -/
def monitorStep (checkInterval : Nat)
    (enumResult : Except String (List (String × Subscription)))
    (perSub : Subscription → Except String Unit) : Nat :=
  match checkAllSubscriptions enumResult perSub with
  | Except.ok _ => checkInterval
  | Except.error _ => 60

end Monitor

/-! ### Concrete fixtures used by witnesses and counterexamples -/

/-- A two-rule generic rule set: the spec's worked example (humidity at least
85 and temperature within 15 to 22, severity high) plus a critical storm
rule. -/
def sampleRules : Rules.AllRules :=
  [("generic",
    [("humidity_risk",
      { conditions :=
          [("humidity", Rules.Cond.geC (mkRat 85 1)),
           ("temperature", Rules.Cond.range (mkRat 15 1) (mkRat 22 1))]
        severity := some "high"
        message := some "High humidity risk for your crop."
        advice := some "Improve ventilation." }),
     ("storm_risk",
      { conditions := [("wind_speed", Rules.Cond.gtC (mkRat 60 1))]
        severity := some "critical"
        message := some "Severe storm expected."
        advice := some "Move equipment to shelter." })])]

/-- The spec's worked observation: temperature 18, humidity 90, rainfall 6. -/
def sampleWeather : Rules.Weather :=
  [("temperature", mkRat 18 1), ("humidity", mkRat 90 1), ("rainfall_mm", mkRat 6 1)]

/-- An observation no sample rule matches. -/
def calmWeather : Rules.Weather := [("temperature", mkRat 25 1)]

/-- A governance state whose hourly counter for recipient u1 stands at its
ceiling of 5 and whose daily counter stands at its ceiling of 20, neither
expiring. -/
def c3State : Notif.KV :=
  [(Notif.hourlyKey "u1", (5, none)), (Notif.dailyKey "u1", (20, none))]

/-- The governance state after five markSent calls within one hour for
recipient u1 at medium severity with distinct content summaries. -/
def c3FiveSent : Notif.KV :=
  Notif.markNotificationSent
    (Notif.markNotificationSent
      (Notif.markNotificationSent
        (Notif.markNotificationSent
          (Notif.markNotificationSent [] 0 "u1" "weather" "medium" "s1")
          0 "u1" "weather" "medium" "s2")
        0 "u1" "weather" "medium" "s3")
      0 "u1" "weather" "medium" "s4")
    0 "u1" "weather" "medium" "s5"

/-- A registry holding one client connected with lat 37.42, lon -122.08 and
crop potato. -/
def c2Registry : Ws.ManagerState :=
  Ws.connect Ws.emptyManager 1 (some "u") (some (mkRat 3742 100))
    (some (mkRat (-12208) 100)) (some "potato")

/-- An alert envelope at lat 37.421, lon -122.079 for crop Potato carrying
the payload PAYLOAD. -/
def c2Envelope : Ws.AlertEnvelope :=
  { lat := some (mkRat 37421 1000), lon := some (mkRat (-122079) 1000)
    crop := some "Potato", data := some "PAYLOAD" }

/-- A registry holding one crop-only subscriber (no coordinates given). -/
def c10Registry : Ws.ManagerState :=
  Ws.connect Ws.emptyManager 7 (some "u") none none (some "potato")

/-- An envelope with no latitude but a matching crop. -/
def c10Envelope : Ws.AlertEnvelope :=
  { lat := none, lon := some (mkRat 1 1), crop := some "potato", data := some "D" }

/-- A registry holding two connections of one user at identical coordinates,
with crops potato and tomato. -/
def c7Registry : Ws.ManagerState :=
  Ws.connect
    (Ws.connect Ws.emptyManager 1 (some "u") (some (mkRat 3742 100))
      (some (mkRat (-12208) 100)) (some "potato"))
    2 (some "u") (some (mkRat 3742 100)) (some (mkRat (-12208) 100)) (some "tomato")

/-! ## Association-list lemmas shared across the development -/

theorem fa_lookup_cons {α β : Type} [BEq α] (a : α × β) (l : List (α × β)) (k : α) :
    (a :: l).lookup k = if k == a.1 then some a.2 else l.lookup k := by
  rcases a with ⟨a1, a2⟩
  show (match k == a1 with | true => some a2 | false => l.lookup k) = _
  cases k == a1 <;> simp

theorem fa_lookup_filter_ne {α β : Type} [BEq α] [LawfulBEq α] [DecidableEq α]
    (l : List (α × β)) (k k2 : α) (h : ¬(k2 = k)) :
    (l.filter fun p => ¬(p.1 = k)).lookup k2 = l.lookup k2 := by
  induction l with
  | nil => rfl
  | cons p l ih =>
    by_cases hp : p.1 = k
    · rw [List.filter_cons, if_neg (by simp [hp]), ih, fa_lookup_cons]
      rw [if_neg (by simp [show ¬(k2 = p.1) from by rw [hp]; exact h])]
    · rw [List.filter_cons, if_pos (by simp [hp]), fa_lookup_cons, fa_lookup_cons, ih]

theorem fa_lookup_filter_self {α β : Type} [BEq α] [LawfulBEq α] [DecidableEq α]
    (l : List (α × β)) (k : α) :
    (l.filter fun p => ¬(p.1 = k)).lookup k = none := by
  induction l with
  | nil => rfl
  | cons p l ih =>
    by_cases hp : p.1 = k
    · rw [List.filter_cons, if_neg (by simp [hp]), ih]
    · rw [List.filter_cons, if_pos (by simp [hp]), fa_lookup_cons,
        if_neg (by simp [(Ne.symm hp : ¬(k = p.1))]), ih]

theorem fa_lookup_eq_none {α β : Type} [BEq α] [LawfulBEq α]
    (l : List (α × β)) (k : α) (h : l.lookup k = none) :
    ∀ p ∈ l, ¬(p.1 = k) := by
  induction l with
  | nil => intro p hp; cases hp
  | cons a l ih =>
    rw [fa_lookup_cons] at h
    intro p hp
    rcases List.mem_cons.mp hp with rfl | hmem
    · intro hk
      rw [if_pos (by simp [hk])] at h
      cases h
    · by_cases hb : (k == a.1) = true
      · rw [if_pos hb] at h; cases h
      · rw [if_neg (by simp [hb])] at h
        exact ih h p hmem

theorem fa_mem_of_lookup {α β : Type} [BEq α] [LawfulBEq α]
    (l : List (α × β)) (k : α) (v : β) (h : l.lookup k = some v) :
    (k, v) ∈ l := by
  induction l with
  | nil => cases h
  | cons a l ih =>
    rw [fa_lookup_cons] at h
    by_cases hb : (k == a.1) = true
    · rw [if_pos hb] at h
      have hk : k = a.1 := eq_of_beq hb
      have hv : v = a.2 := by injection h with h2; exact h2.symm
      rcases a with ⟨a1, a2⟩
      simp [hk, hv]
    · rw [if_neg (by simp [hb])] at h
      exact List.mem_cons_of_mem _ (ih h)

/-! ## Rule-engine lemmas -/

namespace Rules

theorem one_le_severityValue (s : String) : 1 ≤ severityValue s := by
  unfold severityValue
  repeat' split
  all_goals omega

theorem one_le_ruleSevValue (r : Rule) : 1 ≤ ruleSevValue r := by
  unfold ruleSevValue; exact one_le_severityValue _

theorem maxSevValue_cons (r : String × Rule) (l : RuleSet) :
    maxSevValue (r :: l) = max (ruleSevValue r.2) (maxSevValue l) := rfl

theorem le_maxSevValue (l : RuleSet) : ∀ r ∈ l, ruleSevValue r.2 ≤ maxSevValue l := by
  induction l with
  | nil => intro r hr; cases hr
  | cons x xs ih =>
    intro r hr
    rw [maxSevValue_cons]
    rcases List.mem_cons.mp hr with rfl | hmem
    · exact le_max_left _ _
    · exact le_trans (ih r hmem) (le_max_right _ _)

theorem find_max (l : RuleSet) : ∀ b : String × Rule,
    (b :: l).find? (fun r => ruleSevValue r.2 == maxSevValue (b :: l)) =
      some (firstArgmax b l) := by
  induction l with
  | nil =>
    intro b
    have hM : maxSevValue [b] = ruleSevValue b.2 := by
      rw [maxSevValue_cons]; simp [maxSevValue]
    simp only [hM, firstArgmax]
    rw [List.find?_cons_of_pos _ (by simp)]
  | cons x xs ih =>
    intro b
    by_cases hbx : ruleSevValue b.2 < ruleSevValue x.2
    · have hxle : ruleSevValue x.2 ≤ maxSevValue (x :: xs) := le_maxSevValue _ x (by simp)
      have hM : maxSevValue (b :: x :: xs) = maxSevValue (x :: xs) := by
        rw [maxSevValue_cons b]
        exact max_eq_right (le_of_lt (lt_of_lt_of_le hbx hxle))
      have hfa : firstArgmax b (x :: xs) = firstArgmax x xs := by
        simp [firstArgmax, hbx]
      rw [List.find?_cons_of_neg _ (by simp only [hM]; simp; omega), hfa]
      simp only [hM]
      exact ih x
    · have hxb : ruleSevValue x.2 ≤ ruleSevValue b.2 := not_lt.mp hbx
      have hM : maxSevValue (b :: x :: xs) = maxSevValue (b :: xs) := by
        rw [maxSevValue_cons, maxSevValue_cons, maxSevValue_cons,
          ← max_assoc, max_eq_left hxb]
      have hfa : firstArgmax b (x :: xs) = firstArgmax b xs := by
        simp [firstArgmax, hbx]
      rw [hfa]
      simp only [hM]
      by_cases hb : ruleSevValue b.2 = maxSevValue (b :: xs)
      · rw [List.find?_cons_of_pos _ (by simp [hb])]
        have ihb := ih b
        rw [List.find?_cons_of_pos _ (by simp [hb])] at ihb
        exact ihb
      · have hvb_le : ruleSevValue b.2 ≤ maxSevValue (b :: xs) := le_maxSevValue _ b (by simp)
        have hx_ne : ¬(ruleSevValue x.2 = maxSevValue (b :: xs)) := by omega
        rw [List.find?_cons_of_neg _ (by simp [hb]),
          List.find?_cons_of_neg _ (by simp [hx_ne])]
        have ihb := ih b
        rw [List.find?_cons_of_neg _ (by simp [hb])] at ihb
        exact ihb

theorem applyCore_adopted (w : Weather) :
    ∀ (rs : RuleSet) (b : String × Rule),
      applyCore w rs (some b) (ruleSevValue b.2) =
        some (firstArgmax b (rs.filter fun r => evaluateConditions w r.2.conditions)) := by
  intro rs
  induction rs with
  | nil => intro b; rfl
  | cons x rs ih =>
    intro b
    by_cases he : evaluateConditions w x.2.conditions = true
    · by_cases hlt : ruleSevValue b.2 < ruleSevValue x.2
      · rw [show applyCore w (x :: rs) (some b) (ruleSevValue b.2)
              = applyCore w rs (some x) (ruleSevValue x.2) from by
            simp only [applyCore]; rw [if_pos (by simp [he, hlt])],
          List.filter_cons, if_pos (by simp [he]),
          show firstArgmax b (x :: rs.filter fun r => evaluateConditions w r.2.conditions)
              = firstArgmax x (rs.filter fun r => evaluateConditions w r.2.conditions) from by
            simp [firstArgmax, hlt]]
        exact ih x
      · rw [show applyCore w (x :: rs) (some b) (ruleSevValue b.2)
              = applyCore w rs (some b) (ruleSevValue b.2) from by
            simp only [applyCore]; rw [if_neg (by simp [hlt])],
          List.filter_cons, if_pos (by simp [he]),
          show firstArgmax b (x :: rs.filter fun r => evaluateConditions w r.2.conditions)
              = firstArgmax b (rs.filter fun r => evaluateConditions w r.2.conditions) from by
            simp [firstArgmax, hlt]]
        exact ih b
    · rw [show applyCore w (x :: rs) (some b) (ruleSevValue b.2)
            = applyCore w rs (some b) (ruleSevValue b.2) from by
          simp only [applyCore]; rw [if_neg (by simp [he])],
        List.filter_cons, if_neg (by simp [he])]
      exact ih b

theorem applyCore_no_match (w : Weather) (rs : RuleSet)
    (h : rs.filter (fun r => evaluateConditions w r.2.conditions) = []) :
    applyCore w rs none 0 = none := by
  induction rs with
  | nil => rfl
  | cons x rs ih =>
    rw [List.filter_cons] at h
    by_cases he : evaluateConditions w x.2.conditions = true
    · rw [if_pos (by simp [he])] at h; cases h
    · rw [if_neg (by simp [he])] at h
      show applyCore w (x :: rs) none 0 = none
      simp only [applyCore]
      rw [if_neg (by simp [he])]
      exact ih h

theorem applyCore_first_match (w : Weather) (rs : RuleSet) (m : String × Rule)
    (ms : RuleSet)
    (h : rs.filter (fun r => evaluateConditions w r.2.conditions) = m :: ms) :
    applyCore w rs none 0 = some (firstArgmax m ms) := by
  induction rs with
  | nil => cases h
  | cons x rs ih =>
    rw [List.filter_cons] at h
    by_cases he : evaluateConditions w x.2.conditions = true
    · rw [if_pos (by simp [he])] at h
      have hx : x = m := by injection h
      have hrest : rs.filter (fun r => evaluateConditions w r.2.conditions) = ms := by
        injection h
      have hpos : (0 : Nat) < ruleSevValue x.2 := lt_of_lt_of_le one_pos (one_le_ruleSevValue _)
      show applyCore w (x :: rs) none 0 = some (firstArgmax m ms)
      simp only [applyCore]
      rw [if_pos (by simp [he, hpos])]
      rw [applyCore_adopted w rs x, hrest, hx]
    · rw [if_neg (by simp [he])] at h
      show applyCore w (x :: rs) none 0 = some (firstArgmax m ms)
      simp only [applyCore]
      rw [if_neg (by simp [he])]
      exact ih h

theorem applyCore_mem (w : Weather) :
    ∀ (rs : RuleSet) (b : Option (String × Rule)) (bv : Nat) (r : String × Rule),
      applyCore w rs b bv = some r → b = some r ∨ r ∈ rs := by
  intro rs
  induction rs with
  | nil => intro b bv r h; exact Or.inl h
  | cons x rs ih =>
    intro b bv r h
    simp only [applyCore] at h
    by_cases hc : (evaluateConditions w x.2.conditions && decide (bv < ruleSevValue x.2)) = true
    · rw [if_pos hc] at h
      rcases ih _ _ _ h with h1 | h1
      · have : x = r := by injection h1
        exact Or.inr (by simp [this])
      · exact Or.inr (List.mem_cons_of_mem _ h1)
    · rw [if_neg hc] at h
      rcases ih _ _ _ h with h1 | h1
      · exact Or.inl h1
      · exact Or.inr (List.mem_cons_of_mem _ h1)

end Rules

/-! ## Claim C1 -/

/-- C1: for every observation and rule configuration whose severities are
tiers, apply_rules returns the verdict of the matching rule with the
strictly highest severity tier, the first such rule in definition order when
several share the top tier (specBest selects exactly that rule), and the
function is deterministic — equal inputs give equal verdicts. -/
theorem C1_apply_rules_highest_severity_first (allRules : Rules.AllRules)
    (w : Rules.Weather) (crop : String)
    (_hTier : ∀ r ∈ Rules.loadRules allRules crop,
      Rules.ruleSeverity r.2 ∈ (["low", "medium", "high", "critical"] : List String)) :
    (Rules.matchingRules allRules w crop ≠ [] →
      (Rules.specBest (Rules.matchingRules allRules w crop)).isSome = true) ∧
    (∀ nr, Rules.specBest (Rules.matchingRules allRules w crop) = some nr →
      Rules.applyRules allRules w crop = Rules.mkVerdict nr) ∧
    Rules.applyRules allRules w crop = Rules.applyRules allRules w crop := by
  refine ⟨?_, ?_, rfl⟩
  · intro hne
    obtain ⟨m, ms, hm⟩ := List.exists_cons_of_ne_nil hne
    unfold Rules.specBest
    rw [hm, Rules.find_max ms m]
    rfl
  · intro nr hnr
    cases hm : Rules.matchingRules allRules w crop with
    | nil => rw [hm] at hnr; cases hnr
    | cons m ms =>
      rw [hm] at hnr
      unfold Rules.specBest at hnr
      rw [Rules.find_max ms m] at hnr
      have hnr2 : Rules.firstArgmax m ms = nr := by injection hnr
      unfold Rules.applyRules
      rw [Rules.applyCore_first_match w _ m ms (by
        have : Rules.matchingRules allRules w crop
            = (Rules.loadRules allRules crop).filter
              (fun r => Rules.evaluateConditions w r.2.conditions) := rfl
        rw [← this, hm]), hnr2]

/-- Witness for C1: on the spec's worked example, the high-severity humidity
rule is selected. -/
theorem C1_witness :
    Rules.applyRules sampleRules sampleWeather "generic" =
      Rules.mkVerdict ("humidity_risk",
        { conditions :=
            [("humidity", Rules.Cond.geC (mkRat 85 1)),
             ("temperature", Rules.Cond.range (mkRat 15 1) (mkRat 22 1))]
          severity := some "high"
          message := some "High humidity risk for your crop."
          advice := some "Improve ventilation." }) :=
  (C1_apply_rules_highest_severity_first sampleRules sampleWeather "generic"
    (by decide)).2.1 _ (by decide)

/-! ## Claim C5 -/

/-- C5: for every observation and crop, apply_rules (over a rule
configuration whose severities are tiers) totally returns a verdict whose
severity is one of the four tiers, and when no rule matches it returns the
fixed no-risk verdict, whose severity is low. -/
theorem C5_apply_rules_total_and_tiered (allRules : Rules.AllRules)
    (w : Rules.Weather) (crop : String)
    (hTier : ∀ r ∈ Rules.loadRules allRules crop,
      Rules.ruleSeverity r.2 ∈ (["low", "medium", "high", "critical"] : List String)) :
    (Rules.applyRules allRules w crop).severity
        ∈ (["low", "medium", "high", "critical"] : List String) ∧
    ((∀ r ∈ Rules.loadRules allRules crop,
        Rules.evaluateConditions w r.2.conditions = false) →
      Rules.applyRules allRules w crop = Rules.noRiskVerdict) ∧
    Rules.noRiskVerdict.severity = "low" := by
  refine ⟨?_, ?_, rfl⟩
  · unfold Rules.applyRules
    cases h : Rules.applyCore w (Rules.loadRules allRules crop) none 0 with
    | none => simp [Rules.noRiskVerdict]
    | some nr =>
      rcases Rules.applyCore_mem w _ _ _ _ h with h1 | h1
      · cases h1
      · simpa [Rules.mkVerdict] using hTier nr h1
  · intro hnone
    unfold Rules.applyRules
    rw [Rules.applyCore_no_match w _ (List.filter_eq_nil_iff.mpr fun r hr => by
      simp [hnone r hr])]

/-- Witness for C5: on the worked example the verdict severity is a tier, and
on a calm observation no rule matches and the no-risk verdict is returned. -/
theorem C5_witness :
    (Rules.applyRules sampleRules sampleWeather "generic").severity
        ∈ (["low", "medium", "high", "critical"] : List String) ∧
    Rules.applyRules sampleRules calmWeather "generic" = Rules.noRiskVerdict :=
  ⟨(C5_apply_rules_total_and_tiered sampleRules sampleWeather "generic" (by decide)).1,
   (C5_apply_rules_total_and_tiered sampleRules calmWeather "generic"
      (by decide)).2.1 (by decide)⟩

/-! ## Key-value store lemmas -/

namespace Notif

theorem dedupKey_ne_hourlyKey (a b : String) : ¬(dedupKey a = hourlyKey b) := by
  intro h
  have h2 := congrArg String.data h
  simp [dedupKey, hourlyKey, String.data_append] at h2

theorem dedupKey_ne_dailyKey (a b : String) : ¬(dedupKey a = dailyKey b) := by
  intro h
  have h2 := congrArg String.data h
  simp [dedupKey, dailyKey, String.data_append] at h2

theorem lookup_kvWrite_self (st : KV) (k : String) (e : Nat × Option Nat) :
    (kvWrite st k e).lookup k = some e := by
  unfold kvWrite
  rw [fa_lookup_cons, if_pos (by simp)]

theorem lookup_kvWrite_ne (st : KV) (k k2 : String) (e : Nat × Option Nat)
    (h : ¬(k2 = k)) : (kvWrite st k e).lookup k2 = st.lookup k2 := by
  unfold kvWrite
  rw [fa_lookup_cons, if_neg (by simp [h]), fa_lookup_filter_ne _ _ _ h]

theorem kvGet_kvSetex_self (st : KV) (t t2 : Nat) (k : String) (ttl v : Nat) :
    kvGet (kvSetex st t k ttl v) t2 k = if t2 < t + ttl then some v else none := by
  unfold kvGet kvSetex
  rw [lookup_kvWrite_self]

theorem kvGet_kvSetex_ne (st : KV) (t t2 : Nat) (k k2 : String) (ttl v : Nat)
    (h : ¬(k2 = k)) : kvGet (kvSetex st t k ttl v) t2 k2 = kvGet st t2 k2 := by
  unfold kvGet kvSetex
  rw [lookup_kvWrite_ne _ _ _ _ h]

theorem lookup_kvIncr_ne (st : KV) (t : Nat) (k k2 : String) (h : ¬(k2 = k)) :
    (kvIncr st t k).lookup k2 = st.lookup k2 := by
  unfold kvIncr
  cases hl : st.lookup k with
  | none => rw [lookup_kvWrite_ne _ _ _ _ h]
  | some e =>
    rcases e with ⟨v, oe⟩
    cases oe with
    | none => rw [lookup_kvWrite_ne _ _ _ _ h]
    | some ex =>
      dsimp only
      split <;> rw [lookup_kvWrite_ne _ _ _ _ h]

theorem kvGet_kvIncr_ne (st : KV) (t t2 : Nat) (k k2 : String) (h : ¬(k2 = k)) :
    kvGet (kvIncr st t k) t2 k2 = kvGet st t2 k2 := by
  unfold kvGet
  rw [lookup_kvIncr_ne _ _ _ _ h]

theorem kvGet_bumpCounter_ne (st : KV) (t t2 : Nat) (k k2 : String) (ttl : Nat)
    (h : ¬(k2 = k)) : kvGet (bumpCounter st t k ttl) t2 k2 = kvGet st t2 k2 := by
  unfold bumpCounter
  cases kvGet st t k with
  | none => rw [kvGet_kvSetex_ne _ _ _ _ _ _ _ h]
  | some _ => rw [kvGet_kvIncr_ne _ _ _ _ _ h]

/-- After mark_notification_sent, the dedup marker of the marked content is
visible exactly until the dedup window expires. -/
theorem kvGet_markSent_dedup (st : KV) (t t2 : Nat) (u ty sev c : String) :
    kvGet (markNotificationSent st t u ty sev c) t2 (dedupKey (notifHash u ty sev c)) =
      if t2 < t + DEDUP_WINDOW_MINUTES * 60 then some 1 else none := by
  unfold markNotificationSent
  rw [kvGet_bumpCounter_ne _ _ _ _ _ _ (dedupKey_ne_dailyKey _ _),
    kvGet_bumpCounter_ne _ _ _ _ _ _ (dedupKey_ne_hourlyKey _ _),
    kvGet_kvSetex_self]

end Notif

/-! ## Claim C4 -/

/-- C4 counterexample: for a critical-severity tuple, markSent immediately
followed by shouldSend on the identical tuple is approved as
critical_priority, not denied as duplicate_recent — the claim fails as
stated over every tuple. -/
theorem C4_counterexample :
    Notif.shouldSendNotification
        (Notif.markNotificationSent [] 0 "farmer1" "weather" "critical" "frost risk")
        0 "farmer1" "weather" "critical" "frost risk" false
      = { send := true, reason := "critical_priority" } ∧
    ¬(Notif.shouldSendNotification
        (Notif.markNotificationSent [] 0 "farmer1" "weather" "critical" "frost risk")
        0 "farmer1" "weather" "critical" "frost risk" false
      = { send := false, reason := "duplicate_recent" }) := by decide

/-- C4 (amended): for every tuple whose severity is not critical (and with
force unset), markSent followed by shouldSend with the identical
(recipient, type, severity, contentSummary) tuple before the dedup window
expires returns send false with reason duplicate_recent. -/
theorem C4_dedup_window (st : Notif.KV) (t t2 : Nat) (u ty sev c : String)
    (hsev : ¬(sev = "critical")) (ht : t2 < t + Notif.DEDUP_WINDOW_MINUTES * 60) :
    Notif.shouldSendNotification (Notif.markNotificationSent st t u ty sev c)
        t2 u ty sev c false
      = { send := false, reason := "duplicate_recent" } := by
  unfold Notif.shouldSendNotification
  rw [if_neg (by simp [hsev]),
    if_pos (by rw [Notif.kvGet_markSent_dedup, if_pos ht]; rfl)]

/-- Witness for C4 at a concrete medium-severity tuple. -/
theorem C4_witness :
    Notif.shouldSendNotification
        (Notif.markNotificationSent [] 0 "farmer1" "weather" "medium" "heat") 0
        "farmer1" "weather" "medium" "heat" false
      = { send := false, reason := "duplicate_recent" } :=
  C4_dedup_window [] 0 0 "farmer1" "weather" "medium" "heat" (by decide) (by decide)

/-! ## Claim C3 -/

/-- C3 counterexample: with the hourly counter at its ceiling of 5 and the
daily counter at its ceiling of 20, a critical-severity shouldSend — whose
severity is not high — is approved as critical_priority, not denied with
rate_limit_hourly as the claim's unconditional wording requires. -/
theorem C3_counterexample :
    Notif.kvGet c3State 0 (Notif.hourlyKey "u1") = some 5 ∧
    Notif.kvGet c3State 0 (Notif.dailyKey "u1") = some 20 ∧
    ¬("critical" = "high") ∧
    Notif.shouldSendNotification c3State 0 "u1" "weather" "critical" "s" false
      = { send := true, reason := "critical_priority" } := by decide

/-- C3 (amended): with force unset, severity not critical and no unexpired
dedup marker for the content, shouldSend denies with rate_limit_hourly
whenever the hourly counter has reached its ceiling of 5 and severity is not
high, and denies with rate_limit_daily whenever the hourly denial did not
fire and the daily counter has reached its ceiling of 20 (even for high
severity); in particular after five markSent calls within one hour at
medium severity, a sixth shouldSend for the same recipient with fresh
content is denied with rate_limit_hourly. -/
theorem C3_rate_limit_ceilings :
    (∀ (st : Notif.KV) (t : Nat) (u ty sev c : String),
      ¬(sev = "critical") →
      Notif.kvGet st t (Notif.dedupKey (Notif.notifHash u ty sev c)) = none →
      ∀ hc : Nat, Notif.kvGet st t (Notif.hourlyKey u) = some hc →
        Notif.MAX_NOTIFICATIONS_PER_HOUR ≤ hc → ¬(sev = "high") →
        Notif.shouldSendNotification st t u ty sev c false
          = { send := false, reason := "rate_limit_hourly" }) ∧
    (∀ (st : Notif.KV) (t : Nat) (u ty sev c : String),
      ¬(sev = "critical") →
      Notif.kvGet st t (Notif.dedupKey (Notif.notifHash u ty sev c)) = none →
      (Notif.kvGet st t (Notif.hourlyKey u) = none ∨
        ∃ hc : Nat, Notif.kvGet st t (Notif.hourlyKey u) = some hc ∧
          (hc < Notif.MAX_NOTIFICATIONS_PER_HOUR ∨ sev = "high")) →
      ∀ dc : Nat, Notif.kvGet st t (Notif.dailyKey u) = some dc →
        Notif.MAX_NOTIFICATIONS_PER_DAY ≤ dc →
        Notif.shouldSendNotification st t u ty sev c false
          = { send := false, reason := "rate_limit_daily" }) ∧
    Notif.shouldSendNotification c3FiveSent 10 "u1" "weather" "medium" "s6" false
      = { send := false, reason := "rate_limit_hourly" } := by
  refine ⟨?_, ?_, by decide⟩
  · intro st t u ty sev c hsev hdedup hc hhour hle hhigh
    unfold Notif.shouldSendNotification
    rw [if_neg (by simp [hsev]), if_neg (by simp [hdedup]), hhour]
    dsimp only
    rw [if_pos (by simp [hle, hhigh])]
  · intro st t u ty sev c hsev hdedup hhour dc hdaily hle
    unfold Notif.shouldSendNotification
    rw [if_neg (by simp [hsev]), if_neg (by simp [hdedup])]
    rcases hhour with hnone | ⟨hc, hsome, hlt⟩
    · rw [hnone]
      dsimp only
      unfold Notif.dailyCheck
      rw [hdaily]
      dsimp only
      rw [if_pos hle]
    · rw [hsome]
      dsimp only
      have hcond : (decide (Notif.MAX_NOTIFICATIONS_PER_HOUR ≤ hc) && sev != "high")
          = false := by
        rcases hlt with hlt | hlt
        · simp [Nat.not_le.mpr hlt]
        · simp [hlt]
      rw [if_neg (by simp [hcond])]
      unfold Notif.dailyCheck
      rw [hdaily]
      dsimp only
      rw [if_pos hle]

/-- Witness for C3 at the ceiling state: a medium-severity check is denied
hourly and a high-severity check is denied daily. -/
theorem C3_witness :
    Notif.shouldSendNotification c3State 0 "u1" "weather" "medium" "s" false
      = { send := false, reason := "rate_limit_hourly" } ∧
    Notif.shouldSendNotification c3State 0 "u1" "weather" "high" "s" false
      = { send := false, reason := "rate_limit_daily" } :=
  ⟨C3_rate_limit_ceilings.1 c3State 0 "u1" "weather" "medium" "s" (by decide) (by decide)
      5 (by decide) (by decide) (by decide),
   C3_rate_limit_ceilings.2.1 c3State 0 "u1" "weather" "high" "s" (by decide) (by decide)
      (Or.inr ⟨5, by decide, Or.inr rfl⟩) 20 (by decide) (by decide)⟩

/-! ## Connection-registry lemmas -/

namespace Ws

theorem removeFromIndex_mem (idx : List (String × List Nat)) (key : String) (ws : Nat)
    (p : String × List Nat) (hp : p ∈ removeFromIndex idx key ws) :
    (p ∈ idx ∧ ¬(p.1 = key)) ∨ ¬(ws ∈ p.2) := by
  unfold removeFromIndex at hp
  split at hp
  next l hl =>
    by_cases hr : l.filter (fun x => ¬(x = ws)) = []
    · rw [if_pos hr] at hp
      have h2 := List.mem_filter.mp hp
      exact Or.inl ⟨h2.1, by simpa using h2.2⟩
    · rw [if_neg hr] at hp
      rcases List.mem_cons.mp hp with rfl | hmem
      · refine Or.inr ?_
        intro hws
        have h2 := List.mem_filter.mp hws
        simp at h2
      · have h2 := List.mem_filter.mp hmem
        exact Or.inl ⟨h2.1, by simpa using h2.2⟩
  next hl =>
    exact Or.inl ⟨hp, fa_lookup_eq_none idx key hl p hp⟩

theorem fold_remove (ws : Nat) :
    ∀ (ls : List String) (idx : List (String × List Nat)),
      (∀ p ∈ idx, ws ∈ p.2 → p.1 ∈ ls) →
      ∀ p ∈ ls.foldl (fun i k => removeFromIndex i k ws) idx, ¬(ws ∈ p.2) := by
  intro ls
  induction ls with
  | nil =>
    intro idx h p hp hws
    exact absurd (h p hp hws) (List.not_mem_nil _)
  | cons k rest ih =>
    intro idx h p hp
    refine ih (removeFromIndex idx k ws) ?_ p hp
    intro q hq hwq
    rcases removeFromIndex_mem idx k ws q hq with ⟨hqi, hqk⟩ | hqw
    · rcases List.mem_cons.mp (h q hqi hwq) with h1 | h1
      · exact absurd h1 hqk
      · exact h1
    · exact absurd hwq hqw

theorem wf_implies_loc (st : ManagerState) (h : wf st = true) :
    ∀ p ∈ st.locationSubscriptions, ∀ w ∈ p.2,
      ∃ info, st.activeConnections.lookup w = some info ∧ p.1 ∈ info.locations := by
  unfold wf at h
  rw [Bool.and_eq_true] at h
  have h1 := h.1
  rw [List.all_eq_true] at h1
  intro p hp w hw
  have h2 := h1 p hp
  rw [List.all_eq_true] at h2
  have h3 := h2 w hw
  split at h3
  next info hl => exact ⟨info, hl, of_decide_eq_true h3⟩
  next hl => cases h3

theorem wf_implies_crop (st : ManagerState) (h : wf st = true) :
    ∀ p ∈ st.cropSubscriptions, ∀ w ∈ p.2,
      ∃ info, st.activeConnections.lookup w = some info ∧ p.1 ∈ info.crops := by
  unfold wf at h
  rw [Bool.and_eq_true] at h
  have h1 := h.2
  rw [List.all_eq_true] at h1
  intro p hp w hw
  have h2 := h1 p hp
  rw [List.all_eq_true] at h2
  have h3 := h2 w hw
  split at h3
  next info hl => exact ⟨info, hl, of_decide_eq_true h3⟩
  next hl => cases h3

theorem disconnect_lookup_self (st : ManagerState) (ws : Nat) :
    (disconnect st ws).activeConnections.lookup ws = none := by
  unfold disconnect
  split
  next hl => exact hl
  next info hl =>
    show (st.activeConnections.filter fun p => ¬(p.1 = ws)).lookup ws = none
    exact fa_lookup_filter_self _ _

theorem disconnect_idem (st : ManagerState) (ws : Nat) :
    disconnect (disconnect st ws) ws = disconnect st ws := by
  have h2 := disconnect_lookup_self st ws
  generalize hgen : disconnect st ws = st2 at h2 ⊢
  unfold disconnect
  rw [h2]

theorem disconnect_closed (st : ManagerState) (ws : Nat) :
    (disconnect st ws).closedChannels = st.closedChannels := by
  unfold disconnect
  split <;> rfl

theorem disconnect_redis (st : ManagerState) (ws : Nat)
    (h : (st.activeConnections.lookup ws).isSome = true) :
    ¬(ws ∈ (disconnect st ws).redisMirror) := by
  unfold disconnect
  split
  next hl => rw [hl] at h; cases h
  next info hl =>
    intro hmem
    have h2 := List.mem_filter.mp hmem
    simp at h2

theorem disconnect_locations_clean (st : ManagerState) (ws : Nat) (h : wf st = true) :
    ∀ p ∈ (disconnect st ws).locationSubscriptions, ¬(ws ∈ p.2) := by
  unfold disconnect
  split
  next hl =>
    intro p hp hws
    obtain ⟨info, hinfo, _⟩ := wf_implies_loc st h p hp ws hws
    rw [hl] at hinfo
    cases hinfo
  next info hl =>
    intro p hp
    refine fold_remove ws info.locations st.locationSubscriptions ?_ p hp
    intro q hq hwq
    obtain ⟨info2, hinfo2, hkey⟩ := wf_implies_loc st h q hq ws hwq
    rw [hl] at hinfo2
    injection hinfo2 with he
    rw [he]
    exact hkey

theorem disconnect_crops_clean (st : ManagerState) (ws : Nat) (h : wf st = true) :
    ∀ p ∈ (disconnect st ws).cropSubscriptions, ¬(ws ∈ p.2) := by
  unfold disconnect
  split
  next hl =>
    intro p hp hws
    obtain ⟨info, hinfo, _⟩ := wf_implies_crop st h p hp ws hws
    rw [hl] at hinfo
    cases hinfo
  next info hl =>
    intro p hp
    refine fold_remove ws info.crops st.cropSubscriptions ?_ p hp
    intro q hq hwq
    obtain ⟨info2, hinfo2, hkey⟩ := wf_implies_crop st h q hq ws hwq
    rw [hl] at hinfo2
    injection hinfo2 with he
    rw [he]
    exact hkey

theorem disconnect_not_matching (st : ManagerState) (ws : Nat) (h : wf st = true)
    (env : AlertEnvelope) : ¬(ws ∈ matchingClients (disconnect st ws) env) := by
  intro hmem
  unfold matchingClients at hmem
  split at hmem
  next la lo hla hlo =>
    dsimp only at hmem
    rw [List.mem_dedup] at hmem
    rcases List.mem_append.mp hmem with hside | hside
    · cases hlk : (disconnect st ws).locationSubscriptions.lookup (locationKey la lo) with
      | none => rw [hlk] at hside; simp at hside
      | some l =>
        rw [hlk] at hside
        simp only [Option.getD_some] at hside
        exact disconnect_locations_clean st ws h (locationKey la lo, l)
          (fa_mem_of_lookup _ _ _ hlk) hside
    · by_cases hck : asciiLower (env.crop.getD "") = ""
      · rw [if_pos hck] at hside
        cases hside
      · rw [if_neg hck] at hside
        cases hlk : (disconnect st ws).cropSubscriptions.lookup
            (asciiLower (env.crop.getD "")) with
        | none => rw [hlk] at hside; simp at hside
        | some l =>
          rw [hlk] at hside
          simp only [Option.getD_some] at hside
          exact disconnect_crops_clean st ws h (asciiLower (env.crop.getD ""), l)
            (fa_mem_of_lookup _ _ _ hlk) hside
  next =>
    exact absurd hmem (List.not_mem_nil _)

theorem dbul_count_aux :
    ∀ (l : List (Nat × ClientInfo)) (s : ManagerState) (n : Nat),
      (l.foldl
        (fun acc p =>
          (disconnect { acc.1 with closedChannels := insertSet acc.1.closedChannels p.1 } p.1,
            acc.2 + 1))
        (s, n)).2 = n + l.length := by
  intro l
  induction l with
  | nil => intro s n; simp
  | cons x xs ih =>
    intro s n
    rw [List.foldl_cons, ih]
    simp only [List.length_cons]
    omega

end Ws

/-! ## Claim C2 -/

/-- C2: the client connected at lat 37.42, lon -122.08 with crop potato
receives exactly one copy of the embedded payload of an envelope at lat
37.421, lon -122.079 with crop Potato: the coordinate pairs fall into the
same 0.1-degree bucket, the crop match is case-insensitive, and in general
the union of location-bucket and crop subscriber sets delivers at most one
copy per connection. -/
theorem C2_single_delivery :
    Ws.broadcastToMatchingClients c2Registry c2Envelope
      = [(1, Ws.WireMessage.payload "PAYLOAD")] ∧
    Ws.locationKey (mkRat 3742 100) (mkRat (-12208) 100)
      = Ws.locationKey (mkRat 37421 1000) (mkRat (-122079) 1000) ∧
    asciiLower "Potato" = "potato" ∧
    (∀ (st : Ws.ManagerState) (env : Ws.AlertEnvelope) (ws : Nat),
      ((Ws.broadcastToMatchingClients st env).map Prod.fst).count ws ≤ 1) := by
  refine ⟨by decide, by decide, by decide, ?_⟩
  intro st env ws
  have hmap : (Ws.broadcastToMatchingClients st env).map Prod.fst
      = Ws.matchingClients st env := by
    simp [Ws.broadcastToMatchingClients, List.map_map, Function.comp_def]
  rw [hmap]
  unfold Ws.matchingClients
  split
  · exact List.nodup_iff_count_le_one.mp (List.nodup_dedup _) ws
  · simp

/-! ## Claim C6 -/

/-- C6 counterexample: the registered connection is removed by disconnect,
yet the underlying channel is never closed — disconnect performs no close
call, so the claim's closing clause fails. -/
theorem C6_counterexample :
    (c2Registry.activeConnections.lookup 1).isSome = true ∧
    (Ws.disconnect c2Registry 1).activeConnections.lookup 1 = none ∧
    (Ws.disconnect c2Registry 1).closedChannels = [] := by decide

/-- C6 (amended): disconnect removes the connection from every location and
crop index entry (under the registry's symmetry invariant), deletes its
external mirror entry, is safe to call twice, and afterwards a broadcast to
its former location or crop reaches it zero times — reaching zero
connections when it was the sole subscriber — but it does not close the
underlying channel; closing is left to the caller. -/
theorem C6_disconnect_cleanup (st : Ws.ManagerState) (ws : Nat) :
    (Ws.wf st = true →
      (∀ p ∈ (Ws.disconnect st ws).locationSubscriptions, ¬(ws ∈ p.2)) ∧
      (∀ p ∈ (Ws.disconnect st ws).cropSubscriptions, ¬(ws ∈ p.2)) ∧
      (∀ env, ¬(ws ∈ Ws.matchingClients (Ws.disconnect st ws) env))) ∧
    ((st.activeConnections.lookup ws).isSome = true →
      ¬(ws ∈ (Ws.disconnect st ws).redisMirror)) ∧
    Ws.disconnect (Ws.disconnect st ws) ws = Ws.disconnect st ws ∧
    (Ws.disconnect st ws).closedChannels = st.closedChannels ∧
    Ws.broadcastToMatchingClients (Ws.disconnect c2Registry 1) c2Envelope = [] :=
  ⟨fun h => ⟨Ws.disconnect_locations_clean st ws h, Ws.disconnect_crops_clean st ws h,
      fun env => Ws.disconnect_not_matching st ws h env⟩,
   Ws.disconnect_redis st ws, Ws.disconnect_idem st ws, Ws.disconnect_closed st ws,
   by decide⟩

/-- Witness for C6 on the concrete one-client registry. -/
theorem C6_witness :
    ¬(1 ∈ (Ws.disconnect c2Registry 1).redisMirror) ∧
    ¬(1 ∈ Ws.matchingClients (Ws.disconnect c2Registry 1) c2Envelope) :=
  ⟨(C6_disconnect_cleanup c2Registry 1).2.1 (by decide),
   ((C6_disconnect_cleanup c2Registry 1).1 (by decide)).2.2 c2Envelope⟩

/-! ## Claim C7 -/

/-- C7 counterexample: a connection registered at lat 37.421, lon -122.079
shares the 0.1-degree bucket of lat 37.42, lon -122.08, yet
disconnect_by_user_and_location called with the latter coordinates closes
nothing and returns 0 — the filter compares exact stored coordinates, not
the location bucket. -/
theorem C7_counterexample :
    Ws.locationKey (mkRat 37421 1000) (mkRat (-122079) 1000)
      = Ws.locationKey (mkRat 3742 100) (mkRat (-12208) 100) ∧
    (Ws.disconnectByUserAndLocation
        (Ws.connect Ws.emptyManager 1 (some "u") (some (mkRat 37421 1000))
          (some (mkRat (-122079) 1000)) (some "potato"))
        "u" (mkRat 3742 100) (mkRat (-12208) 100) none).2 = 0 ∧
    ((Ws.disconnectByUserAndLocation
        (Ws.connect Ws.emptyManager 1 (some "u") (some (mkRat 37421 1000))
          (some (mkRat (-122079) 1000)) (some "potato"))
        "u" (mkRat 3742 100) (mkRat (-12208) 100) none).1.activeConnections.lookup 1).isSome
      = true := by decide

/-- C7 (amended): disconnect_by_user_and_location closes and removes every
connection of the recipient whose stored coordinates equal the given lat and
lon exactly (not merely the same bucket), optionally filtered by exact crop,
and returns the number closed: the count equals the number of matching
connections; for two same-coordinate connections with different crops it
returns 2 without a crop filter and 1 with one. -/
theorem C7_exact_coordinate_disconnect :
    (∀ (st : Ws.ManagerState) (u : String) (la lo : Rat) (c? : Option String),
      (Ws.disconnectByUserAndLocation st u la lo c?).2
        = (st.activeConnections.filter fun p => Ws.connMatches u la lo c? p.2).length) ∧
    ((Ws.disconnectByUserAndLocation c7Registry "u" (mkRat 3742 100)
        (mkRat (-12208) 100) none).2 = 2 ∧
      1 ∈ (Ws.disconnectByUserAndLocation c7Registry "u" (mkRat 3742 100)
        (mkRat (-12208) 100) none).1.closedChannels ∧
      2 ∈ (Ws.disconnectByUserAndLocation c7Registry "u" (mkRat 3742 100)
        (mkRat (-12208) 100) none).1.closedChannels ∧
      (Ws.disconnectByUserAndLocation c7Registry "u" (mkRat 3742 100)
        (mkRat (-12208) 100) none).1.activeConnections = []) ∧
    ((Ws.disconnectByUserAndLocation c7Registry "u" (mkRat 3742 100)
        (mkRat (-12208) 100) (some "potato")).2 = 1 ∧
      1 ∈ (Ws.disconnectByUserAndLocation c7Registry "u" (mkRat 3742 100)
        (mkRat (-12208) 100) (some "potato")).1.closedChannels ∧
      ((Ws.disconnectByUserAndLocation c7Registry "u" (mkRat 3742 100)
        (mkRat (-12208) 100) (some "potato")).1.activeConnections.lookup 2).isSome
        = true) := by
  refine ⟨?_, by decide, by decide⟩
  intro st u la lo c?
  have h := Ws.dbul_count_aux
    (st.activeConnections.filter fun p => Ws.connMatches u la lo c? p.2) st 0
  simpa using h

/-! ## Claim C10 -/

/-- C10: an envelope whose lat or lon is absent is delivered to no connection
at all — broadcast_to_matching_clients returns before consulting either
index, so even connections subscribed to the envelope's crop receive
nothing. -/
theorem C10_missing_coordinates_deliver_nothing (st : Ws.ManagerState)
    (env : Ws.AlertEnvelope) (h : env.lat = none ∨ env.lon = none) :
    Ws.broadcastToMatchingClients st env = [] := by
  have hm : Ws.matchingClients st env = [] := by
    unfold Ws.matchingClients
    rcases h with h | h
    · rw [h]
    · rw [h]
      cases env.lat <;> rfl
  simp [Ws.broadcastToMatchingClients, hm]

/-- Witness for C10: a registry with a crop subscriber and an envelope with
that very crop but no latitude delivers nothing. -/
theorem C10_witness :
    Ws.broadcastToMatchingClients c10Registry c10Envelope = [] :=
  C10_missing_coordinates_deliver_nothing c10Registry c10Envelope (Or.inl rfl)

/-! ## Bucket-arithmetic lemmas -/

theorem pyRoundFrac_exact (i d : Int) (hd : 0 < d) : pyRoundFrac (i * d) d = i := by
  have hfd : Int.fdiv (i * d) d = i := Int.mul_fdiv_cancel i (ne_of_gt hd)
  simp only [pyRoundFrac, hfd]
  have h0 : 2 * (i * d - i * d) = 0 := by ring
  rw [h0, if_pos hd]

theorem format2_grid (q : Rat) (i : Int) (h : q = (i : Rat) * (1 / 10)) :
    format2 q = formatHundredths (10 * bucketIndex q) ∧ bucketIndex q = i := by
  have hdQ : ((q.den : Nat) : Rat) ≠ 0 := by exact_mod_cast q.den_nz
  have hdpos : (0 : Int) < (q.den : Int) := by exact_mod_cast q.pos
  have hnum : (q.num : Rat) = q * ((q.den : Nat) : Rat) :=
    (div_eq_iff hdQ).mp (Rat.num_div_den q)
  have h10 : (10 : Rat) * q = (i : Rat) := by rw [h]; ring
  have hcast : (10 : Rat) * (q.num : Rat) = (i : Rat) * ((q.den : Nat) : Rat) := by
    rw [hnum, ← h10]; ring
  have key : 10 * q.num = i * (q.den : Int) := by exact_mod_cast hcast
  have hbi : bucketIndex q = i := by
    unfold bucketIndex
    rw [key, pyRoundFrac_exact _ _ hdpos]
  refine ⟨?_, hbi⟩
  have key2 : 100 * q.num = (10 * i) * (q.den : Int) := by
    have : (100 : Int) * q.num = 10 * (10 * q.num) := by ring
    rw [this, key]; ring
  unfold format2
  rw [key2, pyRoundFrac_exact _ _ hdpos, hbi]
  have hcond : ¬(q < 0 ∧ 10 * i = 0) := by
    rintro ⟨hq, hz⟩
    have hi0 : i = 0 := by omega
    rw [hi0] at h
    simp at h
    rw [h] at hq
    exact absurd hq (lt_irrefl 0)
  rw [if_neg hcond]
  simp

/-! ## Claim C8 -/

/-- C8 counterexample: publishing at lat 37.421, lon -122.079 uses the
per-location channel key built from the raw coordinates rendered to two
decimals, which differs from the Connection Registry's 0.1-degree bucket key
for the same coordinates — the keys are not computed identically. -/
theorem C8_counterexample :
    (PubSub.publishAlert (mkRat 37421 1000) (mkRat (-122079) 1000) "Potato" "P").map
        Prod.fst
      = ["weather:alerts", "weather:location:37.42,-122.08", "weather:crop:potato"] ∧
    Ws.locationKey (mkRat 37421 1000) (mkRat (-122079) 1000) = "37.40,-122.10" ∧
    ¬("weather:location:37.42,-122.08"
        = "weather:location:"
          ++ Ws.locationKey (mkRat 37421 1000) (mkRat (-122079) 1000)) := by decide

/-- C8 (amended): publish_alert sends the same envelope on the global alerts
channel, a per-location channel and a per-crop channel; the per-crop key is
the lower-cased crop, computed identically to the registry's crop key; the
per-location key is the raw coordinates rendered to two decimals, which
equals the registry's 0.1-degree bucket key whenever both coordinates lie
on the 0.1-degree grid, but not in general. -/
theorem C8_publish_three_channels (lat lon : Rat) (crop payload : String) :
    ((PubSub.publishAlert lat lon crop payload).map Prod.snd
      = [{ lat := some lat, lon := some lon, crop := some crop, data := some payload },
         { lat := some lat, lon := some lon, crop := some crop, data := some payload },
         { lat := some lat, lon := some lon, crop := some crop, data := some payload }]) ∧
    ((PubSub.publishAlert lat lon crop payload).map Prod.fst
      = ["weather:alerts",
         "weather:location:" ++ format2 lat ++ "," ++ format2 lon,
         "weather:crop:" ++ asciiLower crop]) ∧
    (¬(crop = "") → Ws.cropKeyOf (some crop) = some (asciiLower crop)) ∧
    ((∃ i : Int, lat = (i : Rat) * (1 / 10)) → (∃ j : Int, lon = (j : Rat) * (1 / 10)) →
      "weather:location:" ++ format2 lat ++ "," ++ format2 lon
        = "weather:location:" ++ Ws.locationKey lat lon) ∧
    ¬(∀ la lo : Rat,
      "weather:location:" ++ format2 la ++ "," ++ format2 lo
        = "weather:location:" ++ Ws.locationKey la lo) := by
  refine ⟨rfl, rfl, ?_, ?_, ?_⟩
  · intro hcrop
    simp [Ws.cropKeyOf, hcrop]
  · rintro ⟨i, hi⟩ ⟨j, hj⟩
    obtain ⟨e1, _⟩ := format2_grid lat i hi
    obtain ⟨e2, _⟩ := format2_grid lon j hj
    unfold Ws.locationKey
    rw [e1, e2]
    simp [String.append_assoc]
  · intro hall
    exact absurd (hall (mkRat 37421 1000) (mkRat (-122079) 1000)) (by decide)

/-- Witness for C8 at on-grid coordinates lat 37.4, lon -122.1 and crop
Potato. -/
theorem C8_witness :
    Ws.cropKeyOf (some "Potato") = some (asciiLower "Potato") ∧
    "weather:location:" ++ format2 ((374 : Rat) * (1 / 10)) ++ ","
        ++ format2 ((-1221 : Rat) * (1 / 10))
      = "weather:location:"
        ++ Ws.locationKey ((374 : Rat) * (1 / 10)) ((-1221 : Rat) * (1 / 10)) :=
  ⟨(C8_publish_three_channels ((374 : Rat) * (1 / 10)) ((-1221 : Rat) * (1 / 10))
      "Potato" "P").2.2.1 (by decide),
   (C8_publish_three_channels ((374 : Rat) * (1 / 10)) ((-1221 : Rat) * (1 / 10))
      "Potato" "P").2.2.2.1 ⟨374, by push_cast; ring⟩ ⟨-1221, by push_cast; ring⟩⟩

/-! ## Claim C9 -/

/-- C9 counterexample: when the subscription enumeration fails, the loop
sleeps the normal tick interval of 300 seconds, not the claimed one-minute
backoff — the enumeration failure is absorbed inside the tick. -/
theorem C9_counterexample :
    Monitor.monitorStep Monitor.CHECK_INTERVAL_DEFAULT (Except.error "redis down")
        (fun _ => Except.ok ()) = 300 ∧
    ¬(Monitor.monitorStep Monitor.CHECK_INTERVAL_DEFAULT (Except.error "redis down")
        (fun _ => Except.ok ()) = 60) := by decide

/-- C9 (amended): an enumeration failure is caught inside the tick — the
enumeration helper returns the subscriptions collected before the failure
and the tick's handlers absorb every per-subscription and leftover error —
so the tick always returns normally and the loop always sleeps the normal
tick interval; the 60-second backoff branch of the loop is never taken. -/
theorem C9_enumeration_failure_normal_interval (ci : Nat)
    (enumResult : Except String (List (String × Monitor.Subscription)))
    (perSub : Monitor.Subscription → Except String Unit) :
    Monitor.checkAllSubscriptions enumResult perSub = Except.ok () ∧
    Monitor.monitorStep ci enumResult perSub = ci := by
  have hok : Monitor.checkAllSubscriptions enumResult perSub = Except.ok () := by
    unfold Monitor.checkAllSubscriptions
    split <;> rfl
  refine ⟨hok, ?_⟩
  unfold Monitor.monitorStep
  rw [hok]

end FastApi
